import Mathlib

/-
Verification development for the tabular-data augmentation module used for
model distillation (distill_utils.py): the label transformer
(format_distillation_labels), the two synthetic-sample generators
(spunge_augment and munge_augment), the shared post-processor
(postprocess_augmented), and the dispatcher (augment_data).

Embedding conventions:
  * A pandas DataFrame is a `Dataset`: an ordered column schema
    (name, dtype), an index (list of integers) and a list of rows.
  * Machine floats are modelled as rationals; random draws (np.random)
    are supplied by explicit oracle structures, since no property below
    depends on the distribution of the draws.
  * A Python function that can raise is `Except PyError _`; the
    constructors of `PyError` name the concrete exception the source
    raises and at which site.
  * In-place mutation is modelled by explicit state passing: a sampler
    returns, besides its trace of performed steps and its result, the
    post-call state of the caller's DataFrame argument; the dispatcher
    returns the post-call state of the caller's augment_args dict.
-/

set_option autoImplicit false

/-- Concrete Python exceptions raised by the module, named by raise site.
    `valueErrorFracPerturb` is the explicit `raise ValueError("frac_perturb
    must be <= 1")` in both samplers; `valueErrorEmptyConcat` is pandas'
    `ValueError: No objects to concatenate` from `pd.concat([])`;
    `valueErrorKNeighbors` is sklearn's error when 2 neighbors are requested
    from fewer than 2 samples; `valueErrorUnknownMethod` is the explicit
    raise in augment_data; `typeErrorNoneNumClasses` is numpy's TypeError
    from `np.zeros((n, None))`; `keyErrorSizeFactor` is the KeyError from
    `augment_args['size_factor']`; `indexErrorIloc` is the positional
    indexing error from `X.iloc[[0]]` on an empty frame. -/
inductive PyError where
  | valueErrorFracPerturb
  | valueErrorEmptyConcat
  | valueErrorKNeighbors
  | valueErrorUnknownMethod
  | typeErrorNoneNumClasses
  | keyErrorSizeFactor
  | indexErrorIloc
deriving DecidableEq, Repr

/-- Column dtypes relevant to this module: integer, floating point,
    categorical, and the generic object dtype pandas falls back to. -/
inductive Dtype where
  | int
  | float
  | cat
  | obj
deriving DecidableEq, Repr

/-- A cell value of a DataFrame. -/
inductive Val where
  | vint (n : ℤ)
  | vfloat (q : ℚ)
  | vcat (t : String)
deriving DecidableEq, Repr

/-- Numeric view of a cell, used where the source applies arithmetic.
    The source only applies arithmetic to columns listed under a
    continuous type in feature_types_metadata, which are numeric. -/
def valToRat : Val → ℚ
  | Val.vint n => (n : ℚ)
  | Val.vfloat q => q
  | Val.vcat _ => 0

/-- A pandas DataFrame: ordered schema of (column name, dtype), row index,
    and rows (each row lists its cells in schema order). -/
structure Dataset where
  cols : List (String × Dtype)
  index : List ℤ
  rows : List (List Val)
deriving DecidableEq, Repr

/-- Python `int()` applied to a float: truncation toward zero
    (floor for nonnegative arguments, ceiling for negative ones). -/
def pyInt (q : ℚ) : ℤ := if 0 ≤ q then ⌊q⌋ else ⌈q⌉

/-- Result object of format_distillation_labels: a label Series (binary /
    passthrough branches) or a one-hot DataFrame (multiclass branch). -/
inductive Labels where
  | series (ys : List ℚ)
  | frame (m : List (List ℚ))
deriving DecidableEq, Repr

/-- The binary-branch rescaling of one label (source line 28):
    `eps + ((1 - 2*eps) / (max_pred - min_pred)) * (y - min_pred)` with
    `min_pred = 0`, `max_pred = 1`. -/
def binaryRescale (eps y : ℚ) : ℚ := eps + ((1 - 2 * eps) / (1 - 0)) * (y - 0)

/-- One-hot row of length `k` for class label `y` (source lines 18-19):
    `np.zeros` then a 1 written at the label's position. -/
def oneHot (k : ℕ) (y : ℚ) : List ℚ :=
  (List.range k).map (fun j => if (j : ℚ) = y then 1 else 0)

/-- format_distillation_labels (source lines 12-31). In the multiclass
    branch `np.zeros((n, num_classes))` is evaluated first; when
    `num_classes` is absent (None) numpy raises TypeError there, before any
    label is transformed. The binary branch rescales both Series
    elementwise; any other problem_type passes the labels through. -/
def format_distillation_labels (y_train y_test : List ℚ) (problem_type : String)
    (num_classes : Option ℕ) (eps_labelsmooth : ℚ) : Except PyError (Labels × Labels) :=
  if problem_type = "multiclass" then
    match num_classes with
    | none => .error .typeErrorNoneNumClasses
    | some k =>
        .ok (.frame (y_train.map (oneHot k)), .frame (y_test.map (oneHot k)))
  else if problem_type = "binary" then
    .ok (.series (y_train.map (binaryRescale eps_labelsmooth)),
         .series (y_test.map (binaryRescale eps_labelsmooth)))
  else
    .ok (.series y_train, .series y_test)

/-- spunge_augment's per-row bound on perturbed columns (source line 75):
    `max(1, int(frac_perturb * len(X.columns)))`, with Python int()
    truncation. -/
def spunge_num_feature_perturb (frac_perturb : ℚ) (ncols : ℕ) : ℤ :=
  max 1 (pyInt (frac_perturb * (ncols : ℚ)))

/-- Modelled from the spec: the rounding the spec's formula
    `max(1, round(frac_perturb * column_count))` asks for - round half up.
    Declared only to compare the spec's formula with the source's. -/
def specRoundHalfUp (q : ℚ) : ℤ := ⌊q + 1 / 2⌋

/-- The dtype pandas gives a column made by concatenating a column of dtype
    `a` on top of one of dtype `b`: equal dtypes are kept, int and float
    combine to float, anything else falls back to object. -/
def dtypeJoin (a b : Dtype) : Dtype :=
  if a = b then a
  else if (a = Dtype.int ∧ b = Dtype.float) ∨ (a = Dtype.float ∧ b = Dtype.int) then Dtype.float
  else Dtype.obj

/-- pd.concat([A, B]) for two frames sharing the same column names (the
    only way concat is reached in this module): column names and order come
    from A, each column dtype is the join of the two inputs' dtypes, index
    entries and rows are stacked. -/
def concatSameCols (A B : Dataset) : Dataset :=
  { cols := List.zipWith (fun a b => (a.1, dtypeJoin a.2 b.2)) A.cols B.cols,
    index := A.index ++ B.index,
    rows := A.rows ++ B.rows }

/-- DataFrame.tail(m): the last `m` rows together with their index entries. -/
def tailD (d : Dataset) (m : ℕ) : Dataset :=
  { cols := d.cols,
    index := d.index.drop (d.index.length - m),
    rows := d.rows.drop (d.rows.length - m) }

/-- DataFrame.reset_index(drop=True): replace the index by 0..n-1. -/
def reset_index (d : Dataset) : Dataset :=
  { d with index := (List.range d.rows.length).map Int.ofNat }

/-- postprocess_augmented (source lines 53-59): concatenate X before X_aug,
    keep the tail of length len(concat) - len(X), reset the index. None of
    the operations writes through the caller's X (concat copies,
    reset_index is called with inplace=False), so the second component -
    the caller's X after the call - is X itself. -/
def postprocess_augmented (X_aug X : Dataset) : Dataset × Dataset :=
  let C := concatSameCols X X_aug
  (reset_index (tailD C (C.rows.length - X.rows.length)), X)

/-- The union, in source order, of the feature-name lists that
    feature_types_metadata records under the continuous type names
    'float', 'int', 'datetime' (source lines 78-82 and 142-146). -/
def continuousFeatnames (ftm : List (String × List String)) : List String :=
  (((ftm.lookup "float").getD []) ++ ((ftm.lookup "int").getD []))
    ++ ((ftm.lookup "datetime").getD [])

/-- Steps a sampler performs, recorded in order, to state at which point of
    an invocation an error surfaces: the vectorization of X, fitting the
    neighbor index, the batch kneighbors query (munge only), allocating the
    synthetic batch, and generating synthetic row i. -/
inductive Ev where
  | vectorize
  | fitNeighbors
  | queryNeighbors
  | allocBatch
  | rowGenerated (i : ℕ)
deriving DecidableEq, Repr

/-- What a sampler invocation produces: the ordered trace of steps that
    ran, the returned batch or the exception, and the caller's X as it
    stands after the call (in-place mutation made explicit). -/
structure SamplerOut where
  trace : List Ev
  result : Except PyError Dataset
  xAfter : Dataset

/-- pd.concat([X.iloc[[0]].copy()] * n) followed by reset_index(inplace=
    True) (source lines 76-77 and 140-141). Python evaluates X.iloc[[0]]
    first, so an empty X raises IndexError even for n = 0; then n <= 0
    leaves an empty list and pd.concat([]) raises ValueError. -/
def concatReplicateFirstRow (X : Dataset) (n : ℤ) : Except PyError Dataset :=
  if X.rows.isEmpty then .error .indexErrorIloc
  else if n ≤ 0 then .error .valueErrorEmptyConcat
  else .ok { cols := X.cols,
             index := (List.range n.toNat).map Int.ofNat,
             rows := List.replicate n.toNat (X.rows.headD []) }

/-- The random draws spunge_augment consumes, as oracles: kChoice i feeds
    the uniform draw of how many features to perturb in row i, colChoice i
    the column draws for row i, hotdeck i j the row drawn when resampling
    column j for output row i, gaussian c i the normal draw added to column
    c at row i, and bern c i the Bernoulli mask there. No claim below
    depends on the distribution of the draws. -/
structure SpungeRng where
  kChoice : ℕ → ℕ
  colChoice : ℕ → List ℕ
  hotdeck : ℕ → ℕ → ℕ
  gaussian : ℕ → ℕ → ℚ
  bern : ℕ → ℕ → Bool

/-- One pass of the spunge hot-deck loop body (source lines 84-92): row i
    starts from the base row X[i mod len(X)], the number of perturbed
    features is drawn from {1..num_feature_perturb}, the drawn columns get
    a value resampled from that column's empirical values in X. -/
def spungeRow (X : Dataset) (nfp : ℕ) (rng : SpungeRng) (i : ℕ) : List Val :=
  let base := X.rows.getD (i % X.rows.length) []
  let k := 1 + rng.kChoice i % nfp
  let cols := (((rng.colChoice i).map (fun c => c % X.cols.length)).dedup).take k
  (List.range base.length).map (fun j =>
    if j ∈ cols then
      (X.rows.getD (rng.hotdeck i j % X.rows.length) []).getD j (Val.vint 0)
    else base.getD j (Val.vint 0))

/-- The spunge noise pass (source lines 94-101): every column listed as
    continuous receives, rowwise, gaussian noise times a Bernoulli mask;
    the assignment of the resulting float ndarray makes the column dtype
    float. The gaussian oracle draw stands for the N(0, nanstd*
    continuous_feature_noise) sample; its scale is not constrained here. -/
def spungeNoise (X batch : Dataset) (contnames : List String) (rng : SpungeRng) : Dataset :=
  (List.range X.cols.length).foldl (fun b c =>
    if (X.cols.getD c ("", Dtype.obj)).1 ∈ contnames then
      { cols := b.cols.set c ((X.cols.getD c ("", Dtype.obj)).1, Dtype.float),
        index := b.index,
        rows := b.rows.mapIdx (fun i r =>
          r.set c (Val.vfloat (valToRat (r.getD c (Val.vint 0)) +
            rng.gaussian c i * (if rng.bern c i then 1 else 0)))) }
    else b) batch

/-- The computational content of spunge_augment (source lines 62-103):
    the frac_perturb check runs first, then the batch is allocated and
    every row i in range(n) is overwritten by the hot-deck loop, then the
    noise pass runs. The trace records the steps that completed. -/
def spunge_core (X : Dataset) (ftm : List (String × List String)) (n : ℤ)
    (frac_perturb continuous_feature_noise : ℚ) (rng : SpungeRng) :
    List Ev × Except PyError Dataset :=
  if 1 < frac_perturb then ([], .error .valueErrorFracPerturb)
  else
    let nfp := (spunge_num_feature_perturb frac_perturb X.cols.length).toNat
    match concatReplicateFirstRow X n with
    | .error e => ([], .error e)
    | .ok batch0 =>
        let contnames := continuousFeatnames ftm
        let rows := (List.range batch0.rows.length).map (spungeRow X nfp rng)
        let batch := spungeNoise X { batch0 with rows := rows } contnames rng
        (Ev.allocBatch :: (List.range batch0.rows.length).map Ev.rowGenerated,
         .ok batch)

/-- spunge_augment. The source only ever reads the caller's X (every
    in-place write - reset_index(inplace=True), iloc row assignment, column
    assignment - targets the freshly allocated X_aug), so the caller's X
    after the call is X itself. continuous_feature_noise is threaded to the
    noise pass through the oracle only (its scale multiplies a draw the
    oracle already stands for). -/
def spunge_augment (X : Dataset) (ftm : List (String × List String)) (n : ℤ)
    (frac_perturb continuous_feature_noise : ℚ) (rng : SpungeRng) : SamplerOut :=
  { trace := (spunge_core X ftm n frac_perturb continuous_feature_noise rng).1,
    result := (spunge_core X ftm n frac_perturb continuous_feature_noise rng).2,
    xAfter := X }

/-- Modelled from the spec: the nearest-neighbor index of a row, as
    delivered by the external vectorize + Euclidean kNN service (source
    lines 115-130, which build a throwaway TabularNeuralNetModel for
    vectorization and query sklearn NearestNeighbors; neither is part of
    this module). The spec leaves the metric and tie-break to the service;
    all that matters here is that some OTHER row index is returned. -/
def kNearestIndex (r : ℕ) : ℕ := if r = 0 then 1 else 0

/-- Modelled from the spec: the batch kneighbors query with n_neighbors=2.
    Two neighbors (self plus one other) can only be returned when the
    fitted matrix has at least 2 samples; on fewer, the query itself
    raises - the spec notes nearest-neighbor search is undefined for a
    single row. -/
def kneighborsQuery (nrows : ℕ) : Except PyError (ℕ → ℕ) :=
  if nrows < 2 then .error .valueErrorKNeighbors else .ok kNearestIndex

/-- DataFrame.astype(float) applied to the columns listed in contnames
    (source lines 147-149): those columns' dtype becomes float and their
    integer cells become floats. -/
def castColsFloat (d : Dataset) (contnames : List String) : Dataset :=
  { cols := d.cols.map (fun c => if c.1 ∈ contnames then (c.1, Dtype.float) else c),
    index := d.index,
    rows := d.rows.map (fun r =>
      (List.range r.length).map (fun j =>
        if (d.cols.getD j ("", Dtype.obj)).1 ∈ contnames then
          Val.vfloat (valToRat (r.getD j (Val.vint 0)))
        else r.getD j (Val.vint 0))) }

/-- The random draws munge_augment consumes, as oracles: kBinom i feeds the
    Binomial draw of how many columns to perturb in row i, colChoice i the
    column draws for row i, and gaussian i j the standard normal draw that
    the source scales by |base - neighbor| / s for column j of row i. -/
structure MungeRng where
  kBinom : ℕ → ℕ
  colChoice : ℕ → List ℕ
  gaussian : ℕ → ℕ → ℚ

/-- One pass of the munge loop body (source lines 156-167): row i starts
    from base row Xc[i mod len(Xc)], its precomputed nearest neighbor row
    is looked up, a Binomial(ncols, perturb_prob) number of distinct
    columns is drawn, each drawn column takes the neighbor's value, and a
    continuous drawn column additionally gets gaussian noise with scale
    |base - neighbor| / s. -/
def mungeRow (Xc : Dataset) (contnames : List String) (neigh : ℕ → ℕ) (s : ℚ)
    (rng : MungeRng) (i : ℕ) : List Val :=
  let base := Xc.rows.getD (i % Xc.rows.length) []
  let nbr := Xc.rows.getD (neigh (i % Xc.rows.length)) []
  let k := rng.kBinom i % (Xc.cols.length + 1)
  let cols := (((rng.colChoice i).map (fun c => c % Xc.cols.length)).dedup).take k
  (List.range base.length).map (fun j =>
    if j ∈ cols then
      let bv := valToRat (base.getD j (Val.vint 0))
      let nv := nbr.getD j (Val.vint 0)
      if (Xc.cols.getD j ("", Dtype.obj)).1 ∈ contnames then
        Val.vfloat (valToRat nv + (|bv - valToRat nv| / s) * rng.gaussian i j)
      else nv
    else base.getD j (Val.vint 0))

/-- The computational content of munge_augment (source lines 108-169), in
    source order: vectorize X and fit the neighbor index (lines 115-128),
    run the batch kneighbors query (line 129), only then check perturb_prob
    (line 136), copy X (line 139), allocate the batch (lines 140-141), cast
    the continuous columns of the batch and of the local copy to float
    (lines 147-149), and run the row loop (lines 156-167). The trace
    records the steps that completed before a raise. -/
def munge_core (X : Dataset) (ftm : List (String × List String)) (n : ℤ)
    (perturb_prob s : ℚ) (rng : MungeRng) : List Ev × Except PyError Dataset :=
  match kneighborsQuery X.rows.length with
  | .error e => ([Ev.vectorize, Ev.fitNeighbors], .error e)
  | .ok neigh =>
      let tr := [Ev.vectorize, Ev.fitNeighbors, Ev.queryNeighbors]
      if 1 < perturb_prob then (tr, .error .valueErrorFracPerturb)
      else
        let Xc := X
        match concatReplicateFirstRow Xc n with
        | .error e => (tr, .error e)
        | .ok batch0 =>
            let contnames := continuousFeatnames ftm
            let batch1 := castColsFloat batch0 contnames
            let Xc2 := castColsFloat Xc contnames
            let rows := (List.range batch0.rows.length).map
              (mungeRow Xc2 contnames neigh s rng)
            (tr ++ Ev.allocBatch ::
               (List.range batch0.rows.length).map Ev.rowGenerated,
             .ok { batch1 with rows := rows })

/-- munge_augment. Line 139 of the source rebinds the local name X to
    X.copy() before the astype(float) column writes of line 149, so those
    writes land on the copy and the caller's X after the call is X
    itself. -/
def munge_augment (X : Dataset) (ftm : List (String × List String)) (n : ℤ)
    (perturb_prob s : ℚ) (rng : MungeRng) : SamplerOut :=
  { trace := (munge_core X ftm n perturb_prob s rng).1,
    result := (munge_core X ftm n perturb_prob s rng).2,
    xAfter := X }

/-- A Python float-typed configuration entry, which may be np.inf
    (augment_data line 41 stores np.inf as the default max_size). -/
inductive PyNum where
  | rat (q : ℚ)
  | inf
deriving DecidableEq, Repr

/-- The recognized keys of the augment_args dict; a `none` field models an
    absent key. The samplers read their tuning keys through **augment_args
    with the source's defaults when absent. -/
structure AugArgs where
  num_augmented_samples : Option ℤ
  max_size : Option PyNum
  size_factor : Option ℚ
  frac_perturb : Option ℚ
  continuous_feature_noise : Option ℚ
  perturb_prob : Option ℚ
  s : Option ℚ
deriving DecidableEq, Repr

/-- The augment_args dict with no keys set, the source's default value for
    the augment_args parameter. -/
def emptyArgs : AugArgs := ⟨none, none, none, none, none, none, none⟩

/-- Lines 39-42 of augment_data: when num_augmented_samples is absent,
    default max_size to np.inf (writing it into the dict), then derive
    num_augmented_samples = int(min(max_size, size_factor * len(X))) and
    write it into the dict. A missing size_factor raises KeyError at line
    42, after the max_size write. Returns the derived count together with
    the dict as the caller sees it after the call. -/
def deriveNumSamples (X : Dataset) (args : AugArgs) : Except PyError ℤ × AugArgs :=
  match args.num_augmented_samples with
  | some n => (.ok n, args)
  | none =>
      let args1 := match args.max_size with
        | some _ => args
        | none => { args with max_size := some PyNum.inf }
      match args1.size_factor with
      | none => (.error .keyErrorSizeFactor, args1)
      | some sf =>
          let target : ℚ := sf * (X.rows.length : ℚ)
          let n := pyInt (match args1.max_size with
            | some (PyNum.rat m) => min m target
            | _ => target)
          (.ok n, { args1 with num_augmented_samples := some n })

/-- augment_data (source lines 33-51): a caller-supplied augmentation_data
    frame goes straight to the post-processor; otherwise the sample count
    is derived (possibly mutating the caller's augment_args dict), the
    method name dispatches to a sampler - any name other than 'spunge' or
    'munge' raises at line 49, after the derivation - and the batch goes
    through postprocess_augmented. Returns the result together with the
    augment_args dict as the caller sees it after the call. -/
def augment_data (X_train : Dataset) (ftm : List (String × List String))
    (augmentation_data : Option Dataset) (augment_method : String) (args : AugArgs)
    (srng : SpungeRng) (mrng : MungeRng) : Except PyError Dataset × AugArgs :=
  match augmentation_data with
  | some xa => (.ok (postprocess_augmented xa X_train).1, args)
  | none =>
      match deriveNumSamples X_train args with
      | (.error e, args1) => (.error e, args1)
      | (.ok n, args1) =>
          if augment_method = "spunge" then
            match (spunge_augment X_train ftm n (args1.frac_perturb.getD (1 / 10))
                (args1.continuous_feature_noise.getD (1 / 10)) srng).result with
            | .error e => (.error e, args1)
            | .ok xa => (.ok (postprocess_augmented xa X_train).1, args1)
          else if augment_method = "munge" then
            match (munge_augment X_train ftm n (args1.perturb_prob.getD (1 / 2))
                (args1.s.getD 1) mrng).result with
            | .error e => (.error e, args1)
            | .ok xa => (.ok (postprocess_augmented xa X_train).1, args1)
          else (.error .valueErrorUnknownMethod, args1)


/-- A fixed oracle for spunge draws, used for concrete invocations. -/
def rngS0 : SpungeRng := ⟨fun _ => 0, fun _ => [], fun _ _ => 0, fun _ _ => 0, fun _ _ => false⟩

/-- A fixed oracle for munge draws, used for concrete invocations. -/
def rngM0 : MungeRng := ⟨fun _ => 0, fun _ => [], fun _ _ => 0⟩

/-- A one-row dataset with a single categorical column. -/
def Xone : Dataset := ⟨[("a", Dtype.cat)], [0], [[Val.vcat "u"]]⟩

/-- A two-row dataset with a single categorical column. -/
def Xtwo : Dataset := ⟨[("a", Dtype.cat)], [0, 1], [[Val.vcat "u"], [Val.vcat "v"]]⟩

/-- A one-row dataset whose single column has integer dtype. -/
def XoneInt : Dataset := ⟨[("a", Dtype.int)], [0], [[Val.vint 1]]⟩

/-- A one-row batch whose single column has float dtype. -/
def BoneFloat : Dataset := ⟨[("a", Dtype.float)], [0], [[Val.vfloat 2]]⟩

/-- The number of rows of a returned frame, when one was returned. -/
def resultLen (e : Except PyError Dataset) : Option ℕ :=
  match e with
  | .ok d => some d.rows.length
  | .error _ => none

/-- An augment_args dict carrying only size_factor = 1 together with
    zeroed sampler knobs, as a caller of augment_data might pass. -/
def argsSizeFactor1 : AugArgs := ⟨none, none, some 1, some 0, some 0, none, none⟩

/-- An augment_args dict carrying only size_factor = 2. -/
def argsSizeFactor2 : AugArgs := ⟨none, none, some 2, none, none, none, none⟩

/-- C1, counterexample: on a one-row X, munge_augment does fail, but the
    error is sklearn's kneighbors error raised from INSIDE the attempted
    neighbor search (the index was already fitted), not an error raised
    before any neighbor search. -/
theorem c1_counterexample :
    (munge_augment Xone [] 10 (1 / 2) 1 rngM0).result
        = .error PyError.valueErrorKNeighbors ∧
    Ev.fitNeighbors ∈ (munge_augment Xone [] 10 (1 / 2) 1 rngM0).trace := by
  constructor <;> norm_num [munge_augment, munge_core, kneighborsQuery, Xone]

/-- C1, amended: on a one-row X, munge_augment fails with the error raised
    by the nearest-neighbor query itself (2 neighbors requested from 1
    sample) - the vectorization and index fitting are attempted first, and
    no synthetic row is ever generated; there is no eager pre-check. -/
theorem c1_single_row_fails_during_neighbor_query (X : Dataset)
    (ftm : List (String × List String)) (n : ℤ) (perturb_prob s : ℚ) (rng : MungeRng)
    (h : X.rows.length = 1) :
    (munge_augment X ftm n perturb_prob s rng).result
        = .error PyError.valueErrorKNeighbors ∧
    Ev.fitNeighbors ∈ (munge_augment X ftm n perturb_prob s rng).trace ∧
    ∀ i, Ev.rowGenerated i ∉ (munge_augment X ftm n perturb_prob s rng).trace := by
  have hq : kneighborsQuery X.rows.length = .error PyError.valueErrorKNeighbors := by
    rw [h]; rfl
  refine ⟨?_, ?_, ?_⟩ <;> simp [munge_augment, munge_core, hq]

/-- C1, witness: the amended theorem applied to the concrete one-row
    dataset Xone. -/
theorem c1_witness :
    Xone.rows.length = 1 ∧
    ((munge_augment Xone [] 10 (1 / 2) 1 rngM0).result
        = .error PyError.valueErrorKNeighbors ∧
     Ev.fitNeighbors ∈ (munge_augment Xone [] 10 (1 / 2) 1 rngM0).trace ∧
     ∀ i, Ev.rowGenerated i ∉ (munge_augment Xone [] 10 (1 / 2) 1 rngM0).trace) :=
  ⟨rfl, c1_single_row_fails_during_neighbor_query Xone [] 10 (1 / 2) 1 rngM0 rfl⟩

/-- C2: num_augmented_samples = 0 does not return an empty batch; both
    samplers reach pd.concat on an empty list of frames, which raises
    ValueError, on nonempty input datasets with valid perturbation
    parameters. -/
theorem c2_zero_samples_raises :
    (spunge_augment Xone [] 0 (1 / 10) (1 / 10) rngS0).result
        = .error PyError.valueErrorEmptyConcat ∧
    (munge_augment Xtwo [] 0 (1 / 2) 1 rngM0).result
        = .error PyError.valueErrorEmptyConcat := by
  constructor
  · norm_num [spunge_augment, spunge_core, concatReplicateFirstRow, Xone]
  · norm_num [munge_augment, munge_core, kneighborsQuery, concatReplicateFirstRow, Xtwo]

/-- C3, counterexample: at frac_perturb = 1/2 on 3 columns the source's
    bound is max(1, int(1.5)) = 1 while the spec's formula gives
    max(1, round(1.5)) = 2, so the claimed equality fails. -/
theorem c3_counterexample :
    spunge_num_feature_perturb (1 / 2) 3 = 1 ∧
    max 1 (specRoundHalfUp ((1 / 2) * 3)) = 2 := by
  constructor
  · norm_num [spunge_num_feature_perturb, pyInt]
  · norm_num [specRoundHalfUp]

/-- C3, amended: for every nonnegative frac_perturb the per-row bound on
    perturbed columns equals max(1, floor(frac_perturb * column_count)) -
    Python int() truncation, not rounding. -/
theorem c3_bound_is_truncation (frac_perturb : ℚ) (ncols : ℕ) (h : 0 ≤ frac_perturb) :
    spunge_num_feature_perturb frac_perturb ncols
      = max 1 ⌊frac_perturb * (ncols : ℚ)⌋ := by
  have hnn : (0 : ℚ) ≤ frac_perturb * (ncols : ℚ) :=
    mul_nonneg h (Nat.cast_nonneg ncols)
  simp [spunge_num_feature_perturb, pyInt, hnn]

/-- C3, witness: the amended theorem applied at frac_perturb = 1/2,
    3 columns. -/
theorem c3_witness :
    (0 : ℚ) ≤ 1 / 2 ∧
    spunge_num_feature_perturb (1 / 2) 3 = max 1 ⌊(1 / 2 : ℚ) * (3 : ℚ)⌋ :=
  ⟨by norm_num, c3_bound_is_truncation (1 / 2) 3 (by norm_num)⟩

/-- C4: for problem_type = binary and 0 <= eps < 1/2 the transformer maps
    every label by y' = eps + (1 - 2*eps) * y, labels 0 and 1 land exactly
    on eps and 1 - eps, and every label in {0, 1} lands inside
    [eps, 1 - eps]. -/
theorem c4_binary_rescale_bounds (y_train y_test : List ℚ) (num_classes : Option ℕ)
    (eps : ℚ) (h0 : 0 ≤ eps) (h1 : eps < 1 / 2) :
    format_distillation_labels y_train y_test "binary" num_classes eps
      = .ok (.series (y_train.map (binaryRescale eps)),
             .series (y_test.map (binaryRescale eps))) ∧
    binaryRescale eps 0 = eps ∧
    binaryRescale eps 1 = 1 - eps ∧
    ∀ y : ℚ, y = 0 ∨ y = 1 →
      eps ≤ binaryRescale eps y ∧ binaryRescale eps y ≤ 1 - eps := by
  have hm : ¬ ("binary" = "multiclass") := by decide
  have e0 : binaryRescale eps 0 = eps := by unfold binaryRescale; ring
  have e1 : binaryRescale eps 1 = 1 - eps := by unfold binaryRescale; ring
  refine ⟨by simp [format_distillation_labels, hm], e0, e1, ?_⟩
  rintro y (rfl | rfl)
  · rw [e0]; constructor <;> linarith
  · rw [e1]; constructor <;> linarith

/-- C4, witness: the theorem applied at eps = 1/100 on the label lists
    [0, 1] and [1]. -/
theorem c4_witness :
    ((0 : ℚ) ≤ 1 / 100 ∧ (1 / 100 : ℚ) < 1 / 2) ∧
    (format_distillation_labels [0, 1] [1] "binary" none (1 / 100)
        = .ok (.series ([0, 1].map (binaryRescale (1 / 100))),
               .series ([1].map (binaryRescale (1 / 100)))) ∧
     binaryRescale (1 / 100) 0 = 1 / 100 ∧
     binaryRescale (1 / 100) 1 = 1 - 1 / 100 ∧
     ∀ y : ℚ, y = 0 ∨ y = 1 →
       1 / 100 ≤ binaryRescale (1 / 100) y ∧
       binaryRescale (1 / 100) y ≤ 1 - 1 / 100) :=
  ⟨⟨by norm_num, by norm_num⟩,
   c4_binary_rescale_bounds [0, 1] [1] none (1 / 100) (by norm_num) (by norm_num)⟩

/-- C5: invoking the label transformer with problem_type = multiclass and
    num_classes absent fails - numpy's np.zeros((n, None)) raises at the
    start of the branch, the condition the spec's taxonomy names
    InvalidConfiguration. -/
theorem c5_multiclass_needs_num_classes (y_train y_test : List ℚ) (eps : ℚ) :
    format_distillation_labels y_train y_test "multiclass" none eps
      = .error PyError.typeErrorNoneNumClasses := by
  simp [format_distillation_labels]

/-- C6, counterexample: with perturb_prob = 3/2 > 1 on a two-row X,
    munge_augment raises the InvalidArgument check only AFTER vectorizing,
    fitting and querying the neighbor index - the trace of completed steps
    is nonempty - so the condition is not detected at the start of the
    operation; and on a one-row X with the same perturb_prob the
    neighbor-query error preempts the InvalidArgument one entirely. -/
theorem c6_counterexample :
    (munge_augment Xtwo [] 10 (3 / 2) 1 rngM0).result
        = .error PyError.valueErrorFracPerturb ∧
    (munge_augment Xtwo [] 10 (3 / 2) 1 rngM0).trace
        = [Ev.vectorize, Ev.fitNeighbors, Ev.queryNeighbors] ∧
    (munge_augment Xone [] 10 (3 / 2) 1 rngM0).result
        = .error PyError.valueErrorKNeighbors := by
  refine ⟨?_, ?_, ?_⟩
  · norm_num [munge_augment, munge_core, kneighborsQuery, Xtwo]
  · norm_num [munge_augment, munge_core, kneighborsQuery, Xtwo]
  · norm_num [munge_augment, munge_core, kneighborsQuery, Xone]

/-- C6, amended: a perturbation parameter above 1.0 makes both samplers
    raise InvalidArgument before any row is generated and with no partial
    batch returned; the check is the very first step of spunge_augment
    (empty trace), while munge_augment (on inputs where the neighbor query
    itself succeeds, i.e. at least 2 rows) runs vectorization, index
    fitting and the neighbor query first and checks perturb_prob only
    then. -/
theorem c6_perturb_check_placement :
    (∀ (X : Dataset) (ftm : List (String × List String)) (n : ℤ)
       (frac_perturb continuous_feature_noise : ℚ) (rng : SpungeRng),
       1 < frac_perturb →
       (spunge_augment X ftm n frac_perturb continuous_feature_noise rng).result
           = .error PyError.valueErrorFracPerturb ∧
       (spunge_augment X ftm n frac_perturb continuous_feature_noise rng).trace = []) ∧
    (∀ (X : Dataset) (ftm : List (String × List String)) (n : ℤ)
       (perturb_prob s : ℚ) (rng : MungeRng),
       1 < perturb_prob → 2 ≤ X.rows.length →
       (munge_augment X ftm n perturb_prob s rng).result
           = .error PyError.valueErrorFracPerturb ∧
       (munge_augment X ftm n perturb_prob s rng).trace
           = [Ev.vectorize, Ev.fitNeighbors, Ev.queryNeighbors]) := by
  constructor
  · intro X ftm n fp cfn rng h
    constructor <;> simp [spunge_augment, spunge_core, h]
  · intro X ftm n pp s rng h h2
    have hq : kneighborsQuery X.rows.length = .ok kNearestIndex := by
      unfold kneighborsQuery
      rw [if_neg (by omega)]
    constructor <;> simp [munge_augment, munge_core, hq, h]

/-- C6, witness: both halves of the amended theorem applied at
    frac_perturb = perturb_prob = 3/2 on concrete datasets. -/
theorem c6_witness :
    (1 < (3 / 2 : ℚ) ∧ 2 ≤ Xtwo.rows.length) ∧
    ((spunge_augment Xone [] 5 (3 / 2) (1 / 10) rngS0).result
        = .error PyError.valueErrorFracPerturb ∧
     (spunge_augment Xone [] 5 (3 / 2) (1 / 10) rngS0).trace = []) ∧
    ((munge_augment Xtwo [] 5 (3 / 2) 1 rngM0).result
        = .error PyError.valueErrorFracPerturb ∧
     (munge_augment Xtwo [] 5 (3 / 2) 1 rngM0).trace
        = [Ev.vectorize, Ev.fitNeighbors, Ev.queryNeighbors]) :=
  ⟨⟨by norm_num, by norm_num [Xtwo]⟩,
   c6_perturb_check_placement.1 Xone [] 5 (3 / 2) (1 / 10) rngS0 (by norm_num),
   c6_perturb_check_placement.2 Xtwo [] 5 (3 / 2) 1 rngM0 (by norm_num)
     (by norm_num [Xtwo])⟩

/-- C7, counterexample: the post-processor does not force the result's
    dtypes back to X's schema - concatenating an int-typed X with a
    float-typed batch upcasts the column, so the returned frame's dtype
    differs from X's. -/
theorem c7_counterexample :
    (postprocess_augmented BoneFloat XoneInt).1.cols = [("a", Dtype.float)] ∧
    (postprocess_augmented BoneFloat XoneInt).1.cols ≠ XoneInt.cols := by
  refine ⟨?_, ?_⟩
  · norm_num [postprocess_augmented, concatSameCols, tailD, reset_index,
      dtypeJoin, XoneInt, BoneFloat]
  · norm_num [postprocess_augmented, concatSameCols, tailD, reset_index,
      dtypeJoin, XoneInt, BoneFloat]
    decide

/-- Mapping first components through the concat schema of two column lists
    of equal length recovers the first list's names. -/
theorem map_fst_zipWith_dtypeJoin (A B : List (String × Dtype)) (h : A.length = B.length) :
    (List.zipWith (fun a b => (a.1, dtypeJoin a.2 b.2)) A B).map Prod.fst
      = A.map Prod.fst := by
  induction A generalizing B with
  | nil => simp
  | cons a A ih =>
      cases B with
      | nil => exact absurd h (by simp)
      | cons b B =>
          have hl : A.length = B.length := by simpa using h
          simp [ih B hl]

/-- C7, amended: for batches sharing X's column names, the post-processed
    frame has exactly len(X_aug) rows, a dense 0-based index, and X's
    column names in X's order; each column's dtype is the concat join of
    X's and X_aug's dtypes (equal to X's exactly when the batch already
    matches X's dtypes, float when an int column meets a float one), and
    the caller's X is not mutated. -/
theorem c7_postprocess_shape (X_aug X : Dataset)
    (hname : X_aug.cols.map Prod.fst = X.cols.map Prod.fst) :
    (postprocess_augmented X_aug X).1.rows.length = X_aug.rows.length ∧
    (postprocess_augmented X_aug X).1.index
        = (List.range ((postprocess_augmented X_aug X).1.rows.length)).map Int.ofNat ∧
    (postprocess_augmented X_aug X).1.cols.map Prod.fst = X.cols.map Prod.fst ∧
    (postprocess_augmented X_aug X).1.cols
        = List.zipWith (fun a b => (a.1, dtypeJoin a.2 b.2)) X.cols X_aug.cols ∧
    (postprocess_augmented X_aug X).2 = X := by
  have hlen : X.cols.length = X_aug.cols.length := by
    have := congrArg List.length hname
    simp only [List.length_map] at this
    omega
  refine ⟨?_, ?_, ?_, rfl, rfl⟩
  · simp [postprocess_augmented, reset_index, tailD, concatSameCols]
  · simp [postprocess_augmented, reset_index, tailD, concatSameCols]
  · simpa [postprocess_augmented, reset_index, tailD, concatSameCols]
      using map_fst_zipWith_dtypeJoin X.cols X_aug.cols hlen

/-- C7, witness: the amended theorem applied to the float batch and the
    int dataset. -/
theorem c7_witness :
    BoneFloat.cols.map Prod.fst = XoneInt.cols.map Prod.fst ∧
    ((postprocess_augmented BoneFloat XoneInt).1.rows.length = BoneFloat.rows.length ∧
     (postprocess_augmented BoneFloat XoneInt).1.index
         = (List.range ((postprocess_augmented BoneFloat XoneInt).1.rows.length)).map
             Int.ofNat ∧
     (postprocess_augmented BoneFloat XoneInt).1.cols.map Prod.fst
         = XoneInt.cols.map Prod.fst ∧
     (postprocess_augmented BoneFloat XoneInt).1.cols
         = List.zipWith (fun a b => (a.1, dtypeJoin a.2 b.2)) XoneInt.cols BoneFloat.cols ∧
     (postprocess_augmented BoneFloat XoneInt).2 = XoneInt) :=
  ⟨rfl, c7_postprocess_shape BoneFloat XoneInt rfl⟩

/-- C8, counterexample: an unknown method name does fail, but not with the
    caller's inputs unchanged - before the raise, augment_data has already
    written max_size and the derived num_augmented_samples into the
    caller's augment_args dict. -/
theorem c8_counterexample :
    (augment_data Xone [] none "foo" argsSizeFactor2 rngS0 rngM0).1
        = .error PyError.valueErrorUnknownMethod ∧
    (augment_data Xone [] none "foo" argsSizeFactor2 rngS0 rngM0).2 ≠ argsSizeFactor2 := by
  have h1 : ¬ ("foo" = "spunge") := by decide
  have h2 : ¬ ("foo" = "munge") := by decide
  constructor
  · norm_num [augment_data, deriveNumSamples, argsSizeFactor2, Xone, pyInt, h1, h2]
  · norm_num [augment_data, deriveNumSamples, argsSizeFactor2, Xone, pyInt, h1, h2]
    exact fun h => Option.noConfusion h

/-- C8, amended: with no caller-supplied augmentation_data, any method
    name other than 'spunge' and 'munge' makes augment_data fail before
    any sampler runs - with the unknown-method ValueError when a sample
    count is present or derivable, and with the missing-size_factor
    KeyError when neither num_augmented_samples nor size_factor was given;
    the augment_args dict, however, may have been mutated by then. -/
theorem c8_unknown_method_fails (X : Dataset) (ftm : List (String × List String))
    (args : AugArgs) (method : String) (srng : SpungeRng) (mrng : MungeRng)
    (h1 : ¬ method = "spunge") (h2 : ¬ method = "munge") :
    (augment_data X ftm none method args srng mrng).1
        = .error (if args.num_augmented_samples.isSome ∨ args.size_factor.isSome
                  then PyError.valueErrorUnknownMethod
                  else PyError.keyErrorSizeFactor) := by
  rcases hn : args.num_augmented_samples with _ | n
  · rcases hsf : args.size_factor with _ | sf
    · rcases hms : args.max_size with _ | m <;>
        simp [augment_data, deriveNumSamples, hn, hsf, hms, h1, h2]
    · rcases hms : args.max_size with _ | m <;>
        simp [augment_data, deriveNumSamples, hn, hsf, hms, h1, h2]
  · simp [augment_data, deriveNumSamples, hn, h1, h2]

/-- C8, witness: the amended theorem applied to method name 'foo' twice -
    with a size_factor-only args dict (sample count derivable, so the
    unknown-method error) and with the empty args dict (neither
    num_augmented_samples nor size_factor, so the KeyError). -/
theorem c8_witness :
    (¬ "foo" = "spunge" ∧ ¬ "foo" = "munge") ∧
    (augment_data Xone [] none "foo" argsSizeFactor2 rngS0 rngM0).1
        = .error PyError.valueErrorUnknownMethod ∧
    (augment_data Xone [] none "foo" emptyArgs rngS0 rngM0).1
        = .error PyError.keyErrorSizeFactor :=
  ⟨⟨by decide, by decide⟩,
   by simpa [argsSizeFactor2] using
     c8_unknown_method_fails Xone [] argsSizeFactor2 "foo" rngS0 rngM0
       (by decide) (by decide),
   by simpa [emptyArgs] using
     c8_unknown_method_fails Xone [] emptyArgs "foo" rngS0 rngM0
       (by decide) (by decide)⟩

/-- C9: augment_data's configuration handling is visible to later calls
    that share an augment_args dict (as calls relying on the mutable
    default dict do): after a first call on a one-row X derives and stores
    num_augmented_samples = 1, a second call on a two-row X with the
    shared dict returns 1 synthetic row, while the same call with a fresh
    dict derives size_factor * len(X) = 2 and returns 2 rows. -/
theorem c9_config_state_carries_over :
    (augment_data Xone [] none "spunge" argsSizeFactor1 rngS0 rngM0).2.num_augmented_samples
        = some 1 ∧
    resultLen (augment_data Xtwo [] none "spunge"
        ((augment_data Xone [] none "spunge" argsSizeFactor1 rngS0 rngM0).2)
        rngS0 rngM0).1 = some 1 ∧
    resultLen (augment_data Xtwo [] none "spunge" argsSizeFactor1 rngS0 rngM0).1
        = some 2 := by
  refine ⟨?_, ?_, ?_⟩
  · norm_num [augment_data, deriveNumSamples, argsSizeFactor1, Xone, pyInt,
      spunge_augment, spunge_core, spunge_num_feature_perturb, concatReplicateFirstRow,
      spungeRow, spungeNoise, continuousFeatnames, postprocess_augmented, concatSameCols,
      tailD, reset_index]
  · norm_num [resultLen, augment_data, deriveNumSamples, argsSizeFactor1, Xone, Xtwo,
      pyInt, spunge_augment, spunge_core, spunge_num_feature_perturb,
      concatReplicateFirstRow, spungeRow, spungeNoise, continuousFeatnames,
      postprocess_augmented, concatSameCols, tailD, reset_index]
  · norm_num [resultLen, augment_data, deriveNumSamples, argsSizeFactor1, Xone, Xtwo,
      pyInt, spunge_augment, spunge_core, spunge_num_feature_perturb,
      concatReplicateFirstRow, spungeRow, spungeNoise, continuousFeatnames,
      postprocess_augmented, concatSameCols, tailD, reset_index]
    all_goals omega

/-- C10: neither sampler mutates the caller's X - spunge_augment only
    reads it (every in-place write targets the fresh batch), and
    munge_augment applies its float casts to X.copy(), so the caller's
    dataset, values and dtypes, is unchanged after either call. -/
theorem c10_samplers_leave_x_unchanged (X : Dataset)
    (ftm : List (String × List String)) (n : ℤ)
    (frac_perturb continuous_feature_noise perturb_prob s : ℚ)
    (srng : SpungeRng) (mrng : MungeRng) :
    (spunge_augment X ftm n frac_perturb continuous_feature_noise srng).xAfter = X ∧
    (munge_augment X ftm n perturb_prob s mrng).xAfter = X :=
  ⟨rfl, rfl⟩
